import Mathlib

/-!
Shallow embedding of the agent orchestration core of the wayfinder-ai-sample
repository, together with theorems checking the natural-language specification
against it.

Embedded source files:
- `src/agent/Agent.ts` (class `Agent`: `executeTool`, `buildExhaustionMessage`,
  `chat`, `getHistory`) — the orchestration loop, tool executor and history.
- `src/agent/types.ts` (`Message`, `ToolCall`, `ToolResult`, `GenerateResponse`,
  `AgentTool`) — the data model.
- `examples/kiosk-agent/src/prompts.ts` (`MAX_ITERATIONS`,
  `buildSystemInstruction`) — the iteration policy.
- `packages/gemini/gemini.ts` (`GeminiClient.buildContents`) — the request side
  of the provider adapter, used for the continuation-token round trip.

Modelling conventions:
- JavaScript runtime values flowing through tool arguments and results are
  modelled by the `JSValue` type below, with JavaScript truthiness made
  explicit (`JSValue.truthy`).
- A TypeScript optional field that the code sometimes omits is modelled by a
  dedicated sum (`ErrField`) so that an omitted field, an explicit `null`, and
  a string value stay distinguishable, exactly as `JSON.stringify` would
  distinguish them.
- `async`/`await` sequencing is straight-line sequencing here; a thrown
  exception from a tool handler is an `Except.error` result of the handler,
  and a thrown provider error is an `Except.error` result of the provider.
- The provider (`IAIClient.generate`) is modelled as an oracle that may depend
  on the 1-indexed call number, the history, the tools offered, and the system
  instruction; this covers every deterministic and stateful provider behavior,
  since the loop passes exactly these data to each call.
-/

/-- JavaScript runtime value, as far as the agent core observes one: `null`,
booleans, numbers, strings, arrays and objects. Arrays and objects are always
truthy in JavaScript; `null`, `false`, `0` and the empty string are falsy. -/
inductive JSValue where
  | null
  | bool (b : Bool)
  | num (n : Int)
  | str (s : String)
  | arr (elems : List JSValue)
  | obj (fields : List (String × JSValue))

/-- JavaScript truthiness of a `JSValue` (the coercion applied by `if (x)`,
`x ? a : b`, `!x` and `Array.prototype.filter`). -/
def JSValue.truthy : JSValue → Bool
  | .null => false
  | .bool b => b
  | .num n => !(n == 0)
  | .str s => !(s == "")
  | .arr _ => true
  | .obj _ => true

/-- Value thrown by a tool handler. `Agent.executeTool` distinguishes
`error instanceof Error` (which carries a `message`) from any other thrown
value, for which it substitutes the string "Unknown error". -/
inductive Thrown where
  | error (message : String)
  | nonError

/-- Message string that `Agent.executeTool` derives from a thrown value:
`error instanceof Error ? error.message : "Unknown error"`. -/
def thrownMessage : Thrown → String
  | .error m => m
  | .nonError => "Unknown error"

/-- State of the optional `error` field of a `ToolResult` (`error?: string` in
`src/agent/types.ts`): omitted from the object literal, explicitly `null`, or
a string. The distinction between omitted and `null` is observable (e.g. by
`JSON.stringify` or `"error" in r`), so it is kept in the model. -/
inductive ErrField where
  | absent
  | null
  | str (s : String)
deriving DecidableEq

/-- JavaScript truthiness of the `error` field: an omitted field reads as
`undefined` (falsy), `null` is falsy, and a string is truthy iff nonempty. -/
def ErrField.truthy : ErrField → Bool
  | .absent => false
  | .null => false
  | .str s => !(s == "")

/-- Tool call requested by the AI (`ToolCall` in `src/agent/types.ts`):
a tool name, untyped arguments, and the optional opaque `thoughtSignature`
continuation token that must be round-tripped verbatim. -/
structure ToolCall where
  name : String
  args : List (String × JSValue)
  thoughtSignature : Option String

/-- Result of executing a tool (`ToolResult` in `src/agent/types.ts`):
`{ name: string; result: unknown; error?: string }`. -/
structure ToolResult where
  name : String
  result : JSValue
  error : ErrField

/-- Executable tool descriptor (`AgentTool` in `src/agent/types.ts`). The
`description`, `parametersJsonSchema` and `responseJsonSchema` fields are
provider-facing metadata never inspected by the loop; `description` is kept,
the schemas are elided. The `action` handler returns a value or throws. -/
structure AgentTool where
  name : String
  description : String
  action : List (String × JSValue) → Except Thrown JSValue

/-- Registry lookup `this.toolRegistry.get(name)`, where the registry is
`new Map(this.tools.map((tool) => [tool.name, tool]))`. A JavaScript `Map`
built from a list keeps the last entry for a duplicated key, hence the
search over the reversed list. -/
def resolveTool (tools : List AgentTool) (name : String) : Option AgentTool :=
  tools.reverse.find? (fun t => t.name == name)

/-- Embedding of `Agent.executeTool` (`src/agent/Agent.ts` lines 66-97). It is
total — the source never lets an exception escape: an unresolved name yields
`{ name, result: null, error: "Unknown tool: <name>" }`, a successful handler
yields `{ name, result }` (note: the `error` field is omitted), and a throwing
handler yields `{ name, result: null, error: errorMessage }`. -/
def executeTool (tools : List AgentTool) (name : String)
    (args : List (String × JSValue)) : ToolResult :=
  match resolveTool tools name with
  | none => { name := name, result := JSValue.null, error := ErrField.str ("Unknown tool: " ++ name) }
  | some tool =>
    match tool.action args with
    | .ok result => { name := name, result := result, error := ErrField.absent }
    | .error e => { name := name, result := JSValue.null, error := ErrField.str (thrownMessage e) }

/-- Sequential execution of one batch of tool calls, in provider order — the
`for (const tc of response.toolCalls)` loop body of `Agent.chat` (lines
197-204), which pushes `executeTool(tc.name, tc.args)` for each call. -/
def execBatch (tools : List AgentTool) (tcs : List ToolCall) : List ToolResult :=
  tcs.map fun tc => executeTool tools tc.name tc.args

/-- History message (`Message` in `src/agent/types.ts`): a tagged union of
four variants. The `role` field of the source union is determined by the tag
(`user_input`/`tool_results` have role "user", the others role "assistant")
and is therefore not duplicated here. -/
inductive Message where
  | userInput (content : String)
  | assistantResponse (content : String)
  | toolCalls (content : List ToolCall)
  | toolResults (content : List ToolResult)

/-- Provider response (`GenerateResponse` in `src/agent/types.ts`):
`{ text: string | null; toolCalls: ToolCall[] | null }`. -/
structure GenerateResponse where
  text : Option String
  toolCalls : Option (List ToolCall)

/-- Provider oracle standing for `IAIClient.generate`. The first argument is
the 1-indexed number of the `generate` call within the turn (the loop counter
`iterations` at call time); the remaining arguments are exactly what
`Agent.chat` passes: history, tools for this iteration, system instruction.
An `Except.error` models a provider-level exception propagating out of
`generate`. -/
def Provider : Type :=
  Nat → List Message → List AgentTool → String → Except String GenerateResponse

/-- Record of one `generate` call made by the loop (instrumentation of the
embedding: arguments as passed at `src/agent/Agent.ts` lines 182-186). -/
structure GenCall where
  iteration : Nat
  messages : List Message
  tools : List AgentTool
  instruction : String

/-- Observable outcome of one `Agent.chat` call: `threw = some e` when a
provider-level exception propagated out (in which case `messages` is the
persistent `this.messages` at that moment and the other fields are the
values the lost local variables had); otherwise the fields of the returned
`AgentRunResult` plus the persistent history and the instrumentation. -/
structure TurnOutput where
  threw : Option String
  finalText : String
  toolCalls : List ToolCall
  toolResults : List ToolResult
  messages : List Message
  genCalls : List GenCall
  iterations : Nat

/-- Iteration ceiling (`MAX_ITERATIONS` in
`examples/kiosk-agent/src/prompts.ts`). -/
def MAX_ITERATIONS : Nat := 10

/-- Exhaustion message for the case `successCount === 0 && failureCount === 0`
(`Agent.buildExhaustionMessage`, first branch). -/
def clarifyingMessage : String :=
  "I wasn\x27t able to explore much before running out of iteration space. Could you help me refine your request? For example:\n- Are you looking for a specific type of location (restaurant, restroom, exit, etc.)?\n- Do you have a building or floor in mind?\n- Can you describe what you\x27re looking for in different words?\n\nWith a bit more detail, I should be able to give you a much better answer!"

/-- Exhaustion message for the case `successCount > 0 && failureCount === 0`
(`Agent.buildExhaustionMessage`, second branch), parameterized by the
interpolated `toolNames = toolCalls.map((t) => t.name).join(", ")`. -/
def exploredMessage (toolNames : String) : String :=
  "I\x27ve explored the venue and found some information (called: " ++ toolNames ++ "), but I\x27m running low on thinking space. Here\x27s what I gathered:\n\nBased on the results, could you clarify:\n- Which of the results interests you most?\n- Are you looking for something more specific?\n- Would you like directions to one of these locations?\n\nFeel free to ask me to dig deeper—I can continue from where I left off!"

/-- Exhaustion message for the case `failureCount > 0`
(`Agent.buildExhaustionMessage`, third branch). -/
def apologyMessage : String :=
  "I tried searching for what you\x27re looking for, but hit some limits before I could fully complete it. Let me ask a few clarifying questions:\n- What specific location or amenity are you searching for?\n- Do you know which building or floor it might be in?\n- Is there a different way you\x27d describe what you\x27re looking for?\n\nLet me try again with that extra info—I\x27m usually pretty good at finding things!"

/-- Fallback return of `Agent.buildExhaustionMessage` (unreachable: the three
branches cover all sign combinations of the two counts). -/
def fallbackMessage : String :=
  "I\x27ve gathered what I could, but ran out of thinking space before finishing up. Feel free to ask a follow-up question or provide more details—I\x27m here to help!"

/-- Count of outcomes the source classifies as successful:
`toolResults.filter((r) => !r.error && r.result).length` — note both checks
are JavaScript truthiness checks, not presence checks. -/
def successCount (toolResults : List ToolResult) : Nat :=
  (toolResults.filter (fun r => !r.error.truthy && r.result.truthy)).length

/-- Count of outcomes the source classifies as failed:
`toolResults.filter((r) => r.error).length`. -/
def failureCount (toolResults : List ToolResult) : Nat :=
  (toolResults.filter (fun r => r.error.truthy)).length

/-- Embedding of `Agent.buildExhaustionMessage` (`src/agent/Agent.ts` lines
105-153). -/
def buildExhaustionMessage (toolResults : List ToolResult)
    (toolCalls : List ToolCall) : String :=
  if successCount toolResults == 0 && failureCount toolResults == 0 then
    clarifyingMessage
  else if successCount toolResults > 0 && failureCount toolResults == 0 then
    exploredMessage (String.intercalate ", " (toolCalls.map ToolCall.name))
  else if failureCount toolResults > 0 then
    apologyMessage
  else
    fallbackMessage

/-- Tool-menu text block appended to the system instruction on non-final
iterations (`TOOLS_INSTRUCTIONS` in `examples/kiosk-agent/src/prompts.ts`). -/
def TOOLS_INSTRUCTIONS : String :=
  "\nTools:\n    search: Find POIs across the entire venue.\n    searchNearby: Find POIs near the user\x27s current location. Use for \"what\x27s nearby?\", \"what\x27s close?\", or proximity queries. Automatically scoped to the kiosk\x27s position and floor.\n    getPOIDetails: Get full info for a specific POI.\n    showPOI: Display a POI on the map.\n    showDirections: Provide turn-by-turn navigation from the user\x27s current location. Only specify destination POI IDs.\n    getBuildingsAndLevels: Explore venue structure.\n    getSecurityWaitTimes: Get current wait times for all security checkpoints."

/-- Guidance suffix used on iterations with `iteration + 2 >= MAX_ITERATIONS`
(and `iteration < MAX_ITERATIONS`), interpolating the exact number of
remaining iterations. -/
def remainingNote (iteration : Nat) : String :=
  "\n\nNote: You have " ++ toString (MAX_ITERATIONS - iteration) ++ " iteration(s) remaining. Prioritize gathering the most critical information and prepare to wrap up soon."

/-- Guidance suffix used on iterations with `iteration >= MAX_ITERATIONS`. -/
def noIterationsNote : String :=
  "\n\nYou have no iterations left. Provide your final answer based on information already gathered, or ask clarifying questions to help refine future searches."

/-- Embedding of `buildSystemInstruction`
(`examples/kiosk-agent/src/prompts.ts` lines 109-131). The
`BASE_SYSTEM_INSTRUCTION` constant and the `buildLocationContext()` result
both interpolate environment variables, so they are threaded through as the
parameters `base` and `locationContext`; the iteration-dependent structure is
reproduced exactly. -/
def buildSystemInstruction (base locationContext : String) (iteration : Nat) : String :=
  if MAX_ITERATIONS ≤ iteration then
    base ++ locationContext ++ noIterationsNote
  else if MAX_ITERATIONS ≤ iteration + 2 then
    base ++ locationContext ++ TOOLS_INSTRUCTIONS ++ remainingNote iteration
  else
    base ++ locationContext ++ TOOLS_INSTRUCTIONS

/-- Tool withholding of the loop (`src/agent/Agent.ts` lines 178-179):
`iterations === MAX_ITERATIONS ? [] : this.tools`. -/
def toolsForIteration (tools : List AgentTool) (iterations : Nat) : List AgentTool :=
  if iterations == MAX_ITERATIONS then [] else tools

/-- Code of `Agent.chat` after the while loop (`src/agent/Agent.ts` lines
226-269, reached either through `break` with `text = response.text ?? ""`, or
through the loop guard turning false with `text` still unset, passed as
`none` here): append the assistant response when nonempty, then synthesize
the exhaustion message when the ceiling was reached without final text. -/
def finishTurn (iterations : Nat) (messages : List Message)
    (allToolCalls : List ToolCall) (allToolResults : List ToolResult)
    (genCalls : List GenCall) (text : Option String) : TurnOutput :=
  let finalText := text.getD ""
  let messages1 :=
    if finalText = "" then messages
    else messages ++ [Message.assistantResponse finalText]
  if MAX_ITERATIONS ≤ iterations ∧ finalText = "" then
    let exhaustion := buildExhaustionMessage allToolResults allToolCalls
    { threw := none, finalText := exhaustion,
      toolCalls := allToolCalls, toolResults := allToolResults,
      messages := messages1 ++ [Message.assistantResponse exhaustion],
      genCalls := genCalls, iterations := iterations }
  else
    { threw := none, finalText := finalText,
      toolCalls := allToolCalls, toolResults := allToolResults,
      messages := messages1, genCalls := genCalls, iterations := iterations }

/-- Embedding of the while loop of `Agent.chat` (`src/agent/Agent.ts` lines
170-241). The loop guard `iterations < MAX_ITERATIONS` is realized by the
`fuel` argument, maintained equal to `MAX_ITERATIONS - iterations`, so the
recursion is structural; `iterations` is the source counter. Each pass
increments `iterations`, builds the system instruction, withholds tools on
the final iteration, calls the provider (recorded in `genCalls`), and either
executes the returned tool batch and recurs, or breaks with the text. -/
def chatLoop (p : Provider) (tools : List AgentTool) (base locCtx : String) :
    Nat → Nat → List Message → List ToolCall → List ToolResult → List GenCall → TurnOutput
  | 0, iterations, messages, allToolCalls, allToolResults, genCalls =>
      finishTurn iterations messages allToolCalls allToolResults genCalls none
  | fuel + 1, iterations, messages, allToolCalls, allToolResults, genCalls =>
      match p (iterations + 1) messages (toolsForIteration tools (iterations + 1))
          (buildSystemInstruction base locCtx (iterations + 1)) with
      | .error e =>
          { threw := some e, finalText := "",
            toolCalls := allToolCalls, toolResults := allToolResults,
            messages := messages,
            genCalls := genCalls ++ [⟨iterations + 1, messages,
              toolsForIteration tools (iterations + 1),
              buildSystemInstruction base locCtx (iterations + 1)⟩],
            iterations := iterations + 1 }
      | .ok r =>
          match r.toolCalls with
          | some tcs =>
            if 0 < tcs.length then
              chatLoop p tools base locCtx fuel (iterations + 1)
                (messages ++ [Message.toolCalls tcs, Message.toolResults (execBatch tools tcs)])
                (allToolCalls ++ tcs) (allToolResults ++ execBatch tools tcs)
                (genCalls ++ [⟨iterations + 1, messages,
                  toolsForIteration tools (iterations + 1),
                  buildSystemInstruction base locCtx (iterations + 1)⟩])
            else
              finishTurn (iterations + 1) messages allToolCalls allToolResults
                (genCalls ++ [⟨iterations + 1, messages,
                  toolsForIteration tools (iterations + 1),
                  buildSystemInstruction base locCtx (iterations + 1)⟩]) r.text
          | none =>
              finishTurn (iterations + 1) messages allToolCalls allToolResults
                (genCalls ++ [⟨iterations + 1, messages,
                  toolsForIteration tools (iterations + 1),
                  buildSystemInstruction base locCtx (iterations + 1)⟩]) r.text

/-- Embedding of `Agent.chat` (`src/agent/Agent.ts` lines 158-270): append
the user input to the persistent history, reset the per-turn accumulators,
and run the loop with `iterations = 0` (hence fuel `MAX_ITERATIONS`). -/
def chat (p : Provider) (tools : List AgentTool) (base locCtx : String)
    (history : List Message) (userMessage : String) : TurnOutput :=
  chatLoop p tools base locCtx MAX_ITERATIONS 0
    (history ++ [Message.userInput userMessage]) [] [] []

/-- Outbound request part of the Gemini wire format
(`GeminiPart` in `packages/gemini/gemini.ts`). The `functionResponse` carries
the wrapped `{ result: ... }` object as a `JSValue`. -/
inductive GeminiPart where
  | text (text : String)
  | functionCall (name : String) (args : List (String × JSValue)) (thoughtSignature : Option String)
  | functionResponse (name : String) (response : JSValue)

/-- Outbound request content (`GeminiContent` in `packages/gemini/gemini.ts`):
a role string ("user" or "model") and a list of parts. -/
structure GeminiContent where
  role : String
  parts : List GeminiPart

/-- Wrapped response value for a tool result part:
`{ result: tr.error ? { error: tr.error } : tr.result }`, where the condition
is a truthiness check on the optional error string. -/
def toolResultResponseValue (tr : ToolResult) : JSValue :=
  JSValue.obj [("result",
    match tr.error with
    | .str s => if s == "" then tr.result else JSValue.obj [("error", JSValue.str s)]
    | _ => tr.result)]

/-- Embedding of `GeminiClient.buildContents` (`packages/gemini/gemini.ts`
lines 233-266): the adapter maps each history message to one content, and for
a `tool_calls` message re-emits each stored `thoughtSignature` verbatim on
the corresponding function-call part. -/
def buildContents (messages : List Message) : List GeminiContent :=
  messages.map fun msg =>
    match msg with
    | .userInput content => ⟨"user", [GeminiPart.text content]⟩
    | .assistantResponse content => ⟨"model", [GeminiPart.text content]⟩
    | .toolCalls content =>
        ⟨"model", content.map fun tc =>
          GeminiPart.functionCall tc.name tc.args tc.thoughtSignature⟩
    | .toolResults content =>
        ⟨"user", content.map fun tr =>
          GeminiPart.functionResponse tr.name (toolResultResponseValue tr)⟩

/-- Ledger pairing check: every `toolCalls` message is immediately followed by
a `toolResults` message of the same length with positionally matching tool
names. Decidable so that concrete histories can be checked by evaluation. -/
def wellPaired : List Message → Bool
  | [] => true
  | .toolCalls tcs :: .toolResults trs :: rest =>
      (trs.map ToolResult.name == tcs.map ToolCall.name) &&
      (trs.length == tcs.length) && wellPaired rest
  | .toolCalls _ :: _ => false
  | _ :: rest => wellPaired rest

/-- The executor always echoes the requested tool name into the outcome. -/
theorem executeTool_name (tools : List AgentTool) (name : String)
    (args : List (String × JSValue)) : (executeTool tools name args).name = name := by
  unfold executeTool
  split
  · rfl
  · split <;> rfl

/-- A batch of results carries the tool names of the batch of calls, in
order. -/
theorem execBatch_names (tools : List AgentTool) (tcs : List ToolCall) :
    (execBatch tools tcs).map ToolResult.name = tcs.map ToolCall.name := by
  induction tcs with
  | nil => rfl
  | cons tc rest ih =>
      simp only [execBatch, List.map_cons] at ih ⊢
      rw [executeTool_name, ih]

/-- A batch of results has the length of the batch of calls. -/
theorem execBatch_length (tools : List AgentTool) (tcs : List ToolCall) :
    (execBatch tools tcs).length = tcs.length := by
  simp [execBatch]

/-- One loop pass on which the provider throws: the output records the
exception, and the history is exactly the one passed to the throwing call. -/
theorem chatLoop_succ_throw {p : Provider} {tools : List AgentTool}
    {base locCtx : String} {fuel iterations : Nat} {messages : List Message}
    {allToolCalls : List ToolCall} {allToolResults : List ToolResult}
    {genCalls : List GenCall} {e : String}
    (hp : p (iterations + 1) messages (toolsForIteration tools (iterations + 1))
      (buildSystemInstruction base locCtx (iterations + 1)) = .error e) :
    chatLoop p tools base locCtx (fuel + 1) iterations messages allToolCalls allToolResults genCalls =
      { threw := some e, finalText := "",
        toolCalls := allToolCalls, toolResults := allToolResults,
        messages := messages,
        genCalls := genCalls ++ [⟨iterations + 1, messages,
          toolsForIteration tools (iterations + 1),
          buildSystemInstruction base locCtx (iterations + 1)⟩],
        iterations := iterations + 1 } := by
  simp only [chatLoop]
  rw [hp]

/-- One loop pass on which the provider requests a nonempty batch of tool
calls: the batch is executed and stored, verbatim, and the loop recurs. -/
theorem chatLoop_succ_calls {p : Provider} {tools : List AgentTool}
    {base locCtx : String} {fuel iterations : Nat} {messages : List Message}
    {allToolCalls : List ToolCall} {allToolResults : List ToolResult}
    {genCalls : List GenCall} {r : GenerateResponse} {tcs : List ToolCall}
    (hp : p (iterations + 1) messages (toolsForIteration tools (iterations + 1))
      (buildSystemInstruction base locCtx (iterations + 1)) = .ok r)
    (htc : r.toolCalls = some tcs) (hne : 0 < tcs.length) :
    chatLoop p tools base locCtx (fuel + 1) iterations messages allToolCalls allToolResults genCalls =
      chatLoop p tools base locCtx fuel (iterations + 1)
        (messages ++ [Message.toolCalls tcs, Message.toolResults (execBatch tools tcs)])
        (allToolCalls ++ tcs) (allToolResults ++ execBatch tools tcs)
        (genCalls ++ [⟨iterations + 1, messages,
          toolsForIteration tools (iterations + 1),
          buildSystemInstruction base locCtx (iterations + 1)⟩]) := by
  simp only [chatLoop]
  rw [hp]
  simp only [htc]
  rw [if_pos hne]

/-- One loop pass on which the provider returns no tool calls (either a null
list or an empty one): the loop breaks with the returned text. -/
theorem chatLoop_succ_text {p : Provider} {tools : List AgentTool}
    {base locCtx : String} {fuel iterations : Nat} {messages : List Message}
    {allToolCalls : List ToolCall} {allToolResults : List ToolResult}
    {genCalls : List GenCall} {r : GenerateResponse}
    (hp : p (iterations + 1) messages (toolsForIteration tools (iterations + 1))
      (buildSystemInstruction base locCtx (iterations + 1)) = .ok r)
    (htc : r.toolCalls = none ∨ r.toolCalls = some []) :
    chatLoop p tools base locCtx (fuel + 1) iterations messages allToolCalls allToolResults genCalls =
      finishTurn (iterations + 1) messages allToolCalls allToolResults
        (genCalls ++ [⟨iterations + 1, messages,
          toolsForIteration tools (iterations + 1),
          buildSystemInstruction base locCtx (iterations + 1)⟩]) r.text := by
  simp only [chatLoop]
  rw [hp]
  rcases htc with h | h <;> simp [h]

/-- Concrete tool whose handler succeeds with a fixed string, used to
instantiate theorems on closed inputs. -/
def echoTool : AgentTool :=
  { name := "echo", description := "returns a fixed string",
    action := fun _ => .ok (JSValue.str "ok") }

/-- Concrete tool whose handler throws `Error("timeout")`, used to
instantiate theorems on closed inputs. -/
def timeoutTool : AgentTool :=
  { name := "flaky", description := "always throws",
    action := fun _ => .error (Thrown.error "timeout") }

/-- Concrete registry used to instantiate theorems on closed inputs. -/
def demoTools : List AgentTool := [echoTool, timeoutTool]

/-- Provider that immediately returns final text. -/
def textProvider : Provider := fun _ _ _ _ => .ok ⟨some "Hello", none⟩

/-- Provider that throws on every call. -/
def throwProvider : Provider := fun _ _ _ _ => .error "boom"

/-- Provider that nonsensically returns both nonempty text and a nonempty
invocation list on its first call, then concludes with text "done". -/
def bothProvider : Provider := fun i _ _ _ =>
  if i == 1 then .ok ⟨some "Hello!", some [⟨"echo", [], none⟩]⟩
  else .ok ⟨some "done", none⟩

/-- Provider that returns both fields empty. -/
def emptyProvider : Provider := fun _ _ _ _ => .ok ⟨none, none⟩

/-- Provider that requests one tool call (carrying a continuation token) on
every iteration and never produces text. -/
def callsProvider : Provider := fun _ _ _ _ =>
  .ok ⟨none, some [⟨"echo", [], some "SIG"⟩]⟩

/-- Provider that requests one tool call on iterations 1-9 and then returns a
both-empty response on the ceiling iteration. -/
def exhaustingProvider : Provider := fun i _ _ _ =>
  if i == MAX_ITERATIONS then .ok ⟨none, none⟩
  else .ok ⟨none, some [⟨"echo", [], none⟩]⟩


/-- The post-loop code never adds `generate` calls. -/
theorem finishTurn_genCalls (iterations : Nat) (messages : List Message)
    (atc : List ToolCall) (atr : List ToolResult) (gcs : List GenCall)
    (text : Option String) :
    (finishTurn iterations messages atc atr gcs text).genCalls = gcs := by
  simp only [finishTurn]
  split <;> rfl

/-- The post-loop code returns the accumulated tool calls unchanged. -/
theorem finishTurn_toolCalls (iterations : Nat) (messages : List Message)
    (atc : List ToolCall) (atr : List ToolResult) (gcs : List GenCall)
    (text : Option String) :
    (finishTurn iterations messages atc atr gcs text).toolCalls = atc := by
  simp only [finishTurn]
  split <;> rfl

/-- The post-loop code returns the accumulated tool results unchanged. -/
theorem finishTurn_toolResults (iterations : Nat) (messages : List Message)
    (atc : List ToolCall) (atr : List ToolResult) (gcs : List GenCall)
    (text : Option String) :
    (finishTurn iterations messages atc atr gcs text).toolResults = atr := by
  simp only [finishTurn]
  split <;> rfl

/-- The post-loop code never throws. -/
theorem finishTurn_threw (iterations : Nat) (messages : List Message)
    (atc : List ToolCall) (atr : List ToolResult) (gcs : List GenCall)
    (text : Option String) :
    (finishTurn iterations messages atc atr gcs text).threw = none := by
  simp only [finishTurn]
  split <;> rfl

/-- The post-loop code only appends to the history. -/
theorem finishTurn_messages (iterations : Nat) (messages : List Message)
    (atc : List ToolCall) (atr : List ToolResult) (gcs : List GenCall)
    (text : Option String) :
    ∃ suffix, (finishTurn iterations messages atc atr gcs text).messages =
      messages ++ suffix := by
  simp only [finishTurn]
  split
  · by_cases h : text.getD "" = "" <;> simp [h]
  · by_cases h : text.getD "" = "" <;> simp [h]

/-- Loop invariant for the instrumented `generate` calls: each pass of the
loop records exactly one call, every recorded call has an iteration number
that never exceeds the ceiling while the fuel/counter relation holds, and a
call recorded at the ceiling carries the empty tool list. -/
theorem chatLoop_genCalls_inv (p : Provider) (tools : List AgentTool)
    (base locCtx : String) :
    ∀ (fuel iterations : Nat) (messages : List Message) (atc : List ToolCall)
      (atr : List ToolResult) (gcs : List GenCall),
      fuel + iterations ≤ MAX_ITERATIONS →
      (chatLoop p tools base locCtx fuel iterations messages atc atr gcs).genCalls.length ≤ gcs.length + fuel ∧
      ∀ gc ∈ (chatLoop p tools base locCtx fuel iterations messages atc atr gcs).genCalls,
        gc ∈ gcs ∨ (gc.iteration ≤ MAX_ITERATIONS ∧ (gc.iteration = MAX_ITERATIONS → gc.tools = [])) := by
  intro fuel
  induction fuel with
  | zero =>
      intro iterations messages atc atr gcs h
      simp only [chatLoop, finishTurn_genCalls]
      exact ⟨Nat.le_add_right _ _, fun gc hm => Or.inl hm⟩
  | succ fuel ih =>
      intro iterations messages atc atr gcs h
      have hstep : ∀ gc, gc ∈ gcs ++ [(⟨iterations + 1, messages,
          toolsForIteration tools (iterations + 1),
          buildSystemInstruction base locCtx (iterations + 1)⟩ : GenCall)] →
          gc ∈ gcs ∨ (gc.iteration ≤ MAX_ITERATIONS ∧ (gc.iteration = MAX_ITERATIONS → gc.tools = [])) := by
        intro gc hm
        rcases List.mem_append.mp hm with hin | hone
        · exact Or.inl hin
        · right
          have hgc := List.mem_singleton.mp hone
          subst hgc
          constructor
          · show iterations + 1 ≤ MAX_ITERATIONS
            omega
          · intro heq
            have heq2 : iterations + 1 = MAX_ITERATIONS := heq
            show toolsForIteration tools (iterations + 1) = []
            simp [toolsForIteration, heq2]
      rcases hE : p (iterations + 1) messages (toolsForIteration tools (iterations + 1))
          (buildSystemInstruction base locCtx (iterations + 1)) with e | r
      · rw [chatLoop_succ_throw hE]
        exact ⟨by simp, hstep⟩
      · rcases htc : r.toolCalls with _ | tcs
        · rw [chatLoop_succ_text hE (Or.inl htc)]
          rw [finishTurn_genCalls]
          exact ⟨by simp, hstep⟩
        · by_cases hlen : 0 < tcs.length
          · rw [chatLoop_succ_calls hE htc hlen]
            have ihr := ih (iterations + 1)
              (messages ++ [Message.toolCalls tcs, Message.toolResults (execBatch tools tcs)])
              (atc ++ tcs) (atr ++ execBatch tools tcs)
              (gcs ++ [⟨iterations + 1, messages,
                toolsForIteration tools (iterations + 1),
                buildSystemInstruction base locCtx (iterations + 1)⟩]) (by omega)
            refine ⟨ihr.1.trans (by simp; omega), fun gc hm => ?_⟩
            rcases ihr.2 gc hm with hin | hgood
            · exact hstep gc hin
            · exact Or.inr hgood
          · have htnil : tcs = [] := List.length_eq_zero.mp (by omega)
            subst htnil
            rw [chatLoop_succ_text hE (Or.inr htc)]
            rw [finishTurn_genCalls]
            exact ⟨by simp, hstep⟩

/-- C1: for every user input and every provider behavior, a single call to
`Agent.chat` makes at most `MAX_ITERATIONS = 10` calls to the provider
`generate`, and any call made on the ceiling iteration passes the empty tool
list, so the loop always terminates (the embedding is a total function). -/
theorem chat_generate_calls_bounded (p : Provider) (tools : List AgentTool)
    (base locCtx : String) (history : List Message) (userMessage : String) :
    (chat p tools base locCtx history userMessage).genCalls.length ≤ MAX_ITERATIONS ∧
    ∀ gc ∈ (chat p tools base locCtx history userMessage).genCalls,
      gc.iteration ≤ MAX_ITERATIONS ∧ (gc.iteration = MAX_ITERATIONS → gc.tools = []) := by
  have h := chatLoop_genCalls_inv p tools base locCtx MAX_ITERATIONS 0
    (history ++ [Message.userInput userMessage]) [] [] [] (by omega)
  unfold chat
  refine ⟨by simpa using h.1, fun gc hm => ?_⟩
  rcases h.2 gc hm with hin | hgood
  · simp at hin
  · exact hgood

/-- First `generate` call of a concrete run, used as a closed instance. -/
def firstDemoCall : GenCall :=
  ⟨1, [Message.userInput "hi"], toolsForIteration demoTools 1,
    buildSystemInstruction "" "" 1⟩

/-- Witness for `chat_generate_calls_bounded` at a concrete run. -/
theorem chat_generate_calls_bounded_witness :
    firstDemoCall.iteration ≤ MAX_ITERATIONS ∧
    (firstDemoCall.iteration = MAX_ITERATIONS → firstDemoCall.tools = []) := by
  have hm : firstDemoCall ∈ (chat textProvider demoTools "" "" [] "hi").genCalls := by
    have h : (chat textProvider demoTools "" "" [] "hi").genCalls = [firstDemoCall] := rfl
    rw [h]
    exact List.mem_singleton_self _
  exact (chat_generate_calls_bounded textProvider demoTools "" "" [] "hi").2 firstDemoCall hm

/-- Concatenating two well-paired ledgers yields a well-paired ledger. -/
theorem wellPaired_append (l1 l2 : List Message) (h1 : wellPaired l1 = true)
    (h2 : wellPaired l2 = true) : wellPaired (l1 ++ l2) = true := by
  induction l1 using wellPaired.induct <;> simp_all [wellPaired]

/-- A well-paired ledger satisfies the index-wise pairing property: any
`toolCalls` entry at index `i` is immediately followed at `i+1` by a
`toolResults` entry of equal length and matching positional tool names. -/
theorem wellPaired_pairing (l : List Message) :
    wellPaired l = true →
    ∀ i tcs, l[i]? = some (Message.toolCalls tcs) →
      ∃ trs, l[i+1]? = some (Message.toolResults trs) ∧
        trs.length = tcs.length ∧ trs.map ToolResult.name = tcs.map ToolCall.name := by
  induction l using wellPaired.induct with
  | case1 =>
      intro _ i tcs hi
      simp at hi
  | case2 tcs0 trs0 rest ih =>
      intro h i tcs hi
      simp only [wellPaired, Bool.and_eq_true, beq_iff_eq] at h
      match i with
      | 0 =>
          simp only [List.getElem?_cons_zero, Option.some.injEq] at hi
          cases hi
          exact ⟨trs0, by simp, h.1.2, h.1.1⟩
      | 1 => simp at hi
      | (i + 2) =>
          simp only [List.getElem?_cons_succ] at hi
          simpa using ih h.2 i tcs hi
  | case3 content tail hne =>
      intro h
      rcases tail with _ | ⟨m2, rest2⟩
      · simp [wellPaired] at h
      · rcases m2 with c | c | c | c
        · simp [wellPaired] at h
        · simp [wellPaired] at h
        · simp [wellPaired] at h
        · exact (hne c rest2 rfl).elim
  | case4 m rest hne1 hne2 ih =>
      intro h i tcs hi
      have hrest : wellPaired rest = true := by
        rcases m with c | c | c | c
        · simpa [wellPaired] using h
        · simpa [wellPaired] using h
        · exact (hne2 c rfl).elim
        · simpa [wellPaired] using h
      match i with
      | 0 =>
          simp only [List.getElem?_cons_zero, Option.some.injEq] at hi
          exact (hne2 tcs hi).elim
      | (i + 1) =>
          simp only [List.getElem?_cons_succ] at hi
          simpa using ih hrest i tcs hi

/-- A singleton assistant response is a well-paired ledger. -/
theorem wellPaired_assistant (x : String) :
    wellPaired [Message.assistantResponse x] = true := rfl

/-- The post-loop code preserves ledger pairing: it appends at most assistant
responses. -/
theorem finishTurn_wellPaired (iterations : Nat) (messages : List Message)
    (atc : List ToolCall) (atr : List ToolResult) (gcs : List GenCall)
    (text : Option String) (h : wellPaired messages = true) :
    wellPaired (finishTurn iterations messages atc atr gcs text).messages = true := by
  simp only [finishTurn]
  split
  · split
    · exact wellPaired_append _ _ h (wellPaired_assistant _)
    · exact wellPaired_append _ _ (wellPaired_append _ _ h (wellPaired_assistant _))
        (wellPaired_assistant _)
  · split
    · exact h
    · exact wellPaired_append _ _ h (wellPaired_assistant _)

/-- Loop invariant for the history: the loop only appends messages, and it
preserves ledger pairing because each pass appends a `toolCalls` message
immediately followed by its `toolResults` message, built by executing the
very same batch. -/
theorem chatLoop_messages_inv (p : Provider) (tools : List AgentTool)
    (base locCtx : String) :
    ∀ (fuel iterations : Nat) (messages : List Message) (atc : List ToolCall)
      (atr : List ToolResult) (gcs : List GenCall),
      wellPaired messages = true →
      wellPaired (chatLoop p tools base locCtx fuel iterations messages atc atr gcs).messages = true ∧
      ∃ suffix, (chatLoop p tools base locCtx fuel iterations messages atc atr gcs).messages =
        messages ++ suffix := by
  intro fuel
  induction fuel with
  | zero =>
      intro iterations messages atc atr gcs h
      simp only [chatLoop]
      exact ⟨finishTurn_wellPaired _ _ _ _ _ _ h, finishTurn_messages _ _ _ _ _ _⟩
  | succ fuel ih =>
      intro iterations messages atc atr gcs h
      rcases hE : p (iterations + 1) messages (toolsForIteration tools (iterations + 1))
          (buildSystemInstruction base locCtx (iterations + 1)) with e | r
      · rw [chatLoop_succ_throw hE]
        exact ⟨h, [], by simp⟩
      · rcases htc : r.toolCalls with _ | tcs
        · rw [chatLoop_succ_text hE (Or.inl htc)]
          exact ⟨finishTurn_wellPaired _ _ _ _ _ _ h, finishTurn_messages _ _ _ _ _ _⟩
        · by_cases hlen : 0 < tcs.length
          · rw [chatLoop_succ_calls hE htc hlen]
            have hpair : wellPaired (messages ++
                [Message.toolCalls tcs, Message.toolResults (execBatch tools tcs)]) = true := by
              refine wellPaired_append _ _ h ?_
              simp [wellPaired, execBatch_names, execBatch_length]
            have ihr := ih (iterations + 1)
              (messages ++ [Message.toolCalls tcs, Message.toolResults (execBatch tools tcs)])
              (atc ++ tcs) (atr ++ execBatch tools tcs)
              (gcs ++ [⟨iterations + 1, messages,
                toolsForIteration tools (iterations + 1),
                buildSystemInstruction base locCtx (iterations + 1)⟩]) hpair
            refine ⟨ihr.1, ?_⟩
            rcases ihr.2 with ⟨suffix, hs⟩
            exact ⟨[Message.toolCalls tcs, Message.toolResults (execBatch tools tcs)] ++ suffix,
              by rw [hs]; simp⟩
          · have htnil : tcs = [] := List.length_eq_zero.mp (by omega)
            subst htnil
            rw [chatLoop_succ_text hE (Or.inr htc)]
            exact ⟨finishTurn_wellPaired _ _ _ _ _ _ h, finishTurn_messages _ _ _ _ _ _⟩

/-- C2: in every history produced by the loop (starting from any well-paired
history, in particular the empty one), each `tool_calls` message at index i is
immediately followed at index i+1 by a `tool_results` message whose results
array has the same length and the same positional tool-name ordering as the
invocations array; and the history is only ever appended to — the prior
history plus the new `userInput` is an unchanged prefix of the result. -/
theorem chat_history_pairing (p : Provider) (tools : List AgentTool)
    (base locCtx : String) (history : List Message) (userMessage : String)
    (h : wellPaired history = true) :
    (∃ suffix, (chat p tools base locCtx history userMessage).messages =
      history ++ [Message.userInput userMessage] ++ suffix) ∧
    ∀ i tcs, (chat p tools base locCtx history userMessage).messages[i]? =
        some (Message.toolCalls tcs) →
      ∃ trs, (chat p tools base locCtx history userMessage).messages[i+1]? =
          some (Message.toolResults trs) ∧
        trs.length = tcs.length ∧ trs.map ToolResult.name = tcs.map ToolCall.name := by
  have h0 : wellPaired (history ++ [Message.userInput userMessage]) = true :=
    wellPaired_append _ _ h rfl
  have hm := chatLoop_messages_inv p tools base locCtx MAX_ITERATIONS 0
    (history ++ [Message.userInput userMessage]) [] [] [] h0
  exact ⟨hm.2, wellPaired_pairing _ hm.1⟩

/-- Witness for `chat_history_pairing` at a concrete run: the first tool
batch of the run sits at index 1 and its results message follows at index 2
with matching name order. -/
theorem chat_history_pairing_witness :
    ∃ trs, (chat callsProvider demoTools "" "" [] "hi").messages[1+1]? =
        some (Message.toolResults trs) ∧
      trs.length = ([⟨"echo", [], some "SIG"⟩] : List ToolCall).length ∧
      trs.map ToolResult.name = ([⟨"echo", [], some "SIG"⟩] : List ToolCall).map ToolCall.name :=
  (chat_history_pairing callsProvider demoTools "" "" [] "hi" rfl).2 1
    [⟨"echo", [], some "SIG"⟩] (by rfl)

/-- Loop invariant for the throwing path: when the output records a thrown
provider error, the last recorded `generate` call is the throwing one, and
the history in the output is exactly the snapshot passed to that call. -/
theorem chatLoop_throw_inv (p : Provider) (tools : List AgentTool)
    (base locCtx : String) :
    ∀ (fuel iterations : Nat) (messages : List Message) (atc : List ToolCall)
      (atr : List ToolResult) (gcs : List GenCall) (e : String),
      (chatLoop p tools base locCtx fuel iterations messages atc atr gcs).threw = some e →
      ∃ gc, (chatLoop p tools base locCtx fuel iterations messages atc atr gcs).genCalls.getLast? = some gc ∧
        gc.messages = (chatLoop p tools base locCtx fuel iterations messages atc atr gcs).messages ∧
        ∃ suffix, (chatLoop p tools base locCtx fuel iterations messages atc atr gcs).messages =
          messages ++ suffix := by
  intro fuel
  induction fuel with
  | zero =>
      intro iterations messages atc atr gcs e h
      rw [chatLoop, finishTurn_threw] at h
      cases h
  | succ fuel ih =>
      intro iterations messages atc atr gcs e h
      rcases hE : p (iterations + 1) messages (toolsForIteration tools (iterations + 1))
          (buildSystemInstruction base locCtx (iterations + 1)) with e' | r
      · rw [chatLoop_succ_throw hE]
        refine ⟨⟨iterations + 1, messages, toolsForIteration tools (iterations + 1),
          buildSystemInstruction base locCtx (iterations + 1)⟩, ?_, rfl, [], by simp⟩
        simp
      · rcases htc : r.toolCalls with _ | tcs
        · rw [chatLoop_succ_text hE (Or.inl htc)] at h
          rw [finishTurn_threw] at h
          cases h
        · by_cases hlen : 0 < tcs.length
          · rw [chatLoop_succ_calls hE htc hlen] at h ⊢
            rcases ih (iterations + 1)
              (messages ++ [Message.toolCalls tcs, Message.toolResults (execBatch tools tcs)])
              (atc ++ tcs) (atr ++ execBatch tools tcs)
              (gcs ++ [⟨iterations + 1, messages,
                toolsForIteration tools (iterations + 1),
                buildSystemInstruction base locCtx (iterations + 1)⟩]) e h with
              ⟨gc, hlast, hmsg, suffix, hs⟩
            exact ⟨gc, hlast, hmsg,
              [Message.toolCalls tcs, Message.toolResults (execBatch tools tcs)] ++ suffix,
              by rw [hs]; simp⟩
          · have htnil : tcs = [] := List.length_eq_zero.mp (by omega)
            subst htnil
            rw [chatLoop_succ_text hE (Or.inr htc)] at h
            rw [finishTurn_threw] at h
            cases h

/-- C9: a provider-level error propagates out of `Agent.chat` uncaught, and
the persistent history at that moment is exactly the snapshot passed to the
throwing `generate` call — the `userInput` appended at the start of the turn
remains, and no message is appended after the throwing call. -/
theorem chat_provider_throw_preserves_history (p : Provider)
    (tools : List AgentTool) (base locCtx : String) (history : List Message)
    (userMessage : String) (e : String)
    (h : (chat p tools base locCtx history userMessage).threw = some e) :
    ∃ gc, (chat p tools base locCtx history userMessage).genCalls.getLast? = some gc ∧
      gc.messages = (chat p tools base locCtx history userMessage).messages ∧
      ∃ suffix, (chat p tools base locCtx history userMessage).messages =
        history ++ [Message.userInput userMessage] ++ suffix := by
  have := chatLoop_throw_inv p tools base locCtx MAX_ITERATIONS 0
    (history ++ [Message.userInput userMessage]) [] [] [] e h
  simpa using this

/-- Witness for `chat_provider_throw_preserves_history`: a provider that
throws "boom" on its first call. -/
theorem chat_provider_throw_preserves_history_witness :
    ∃ gc, (chat throwProvider demoTools "" "" [] "hi").genCalls.getLast? = some gc ∧
      gc.messages = (chat throwProvider demoTools "" "" [] "hi").messages ∧
      ∃ suffix, (chat throwProvider demoTools "" "" [] "hi").messages =
        [] ++ [Message.userInput "hi"] ++ suffix :=
  chat_provider_throw_preserves_history throwProvider demoTools "" "" [] "hi" "boom" rfl

/-- Executing a concatenation of batches is the concatenation of the
executions. -/
theorem execBatch_append (tools : List AgentTool) (a b : List ToolCall) :
    execBatch tools (a ++ b) = execBatch tools a ++ execBatch tools b := by
  simp [execBatch]

/-- Loop invariant for the accumulators: the accumulated results are exactly
the sequential executions of the accumulated calls, in order. -/
theorem chatLoop_results_inv (p : Provider) (tools : List AgentTool)
    (base locCtx : String) :
    ∀ (fuel iterations : Nat) (messages : List Message) (atc : List ToolCall)
      (atr : List ToolResult) (gcs : List GenCall),
      atr = execBatch tools atc →
      (chatLoop p tools base locCtx fuel iterations messages atc atr gcs).toolResults =
        execBatch tools (chatLoop p tools base locCtx fuel iterations messages atc atr gcs).toolCalls := by
  intro fuel
  induction fuel with
  | zero =>
      intro iterations messages atc atr gcs h
      rw [chatLoop, finishTurn_toolResults, finishTurn_toolCalls, h]
  | succ fuel ih =>
      intro iterations messages atc atr gcs h
      rcases hE : p (iterations + 1) messages (toolsForIteration tools (iterations + 1))
          (buildSystemInstruction base locCtx (iterations + 1)) with e | r
      · rw [chatLoop_succ_throw hE]
        exact h
      · rcases htc : r.toolCalls with _ | tcs
        · rw [chatLoop_succ_text hE (Or.inl htc)]
          rw [finishTurn_toolResults, finishTurn_toolCalls, h]
        · by_cases hlen : 0 < tcs.length
          · rw [chatLoop_succ_calls hE htc hlen]
            exact ih _ _ _ _ _ (by rw [h, execBatch_append])
          · have htnil : tcs = [] := List.length_eq_zero.mp (by omega)
            subst htnil
            rw [chatLoop_succ_text hE (Or.inr htc)]
            rw [finishTurn_toolResults, finishTurn_toolCalls, h]

/-- C10: for every completed `Agent.chat` call, the returned `toolResults`
are exactly the in-order, once-each executions of the returned `toolCalls`;
in particular both arrays have equal length, and the result at every index
carries the name of the call at the same index. -/
theorem chat_results_align_calls (p : Provider) (tools : List AgentTool)
    (base locCtx : String) (history : List Message) (userMessage : String)
    (h : (chat p tools base locCtx history userMessage).threw = none) :
    (chat p tools base locCtx history userMessage).toolResults =
      execBatch tools (chat p tools base locCtx history userMessage).toolCalls ∧
    (chat p tools base locCtx history userMessage).toolResults.length =
      (chat p tools base locCtx history userMessage).toolCalls.length ∧
    (chat p tools base locCtx history userMessage).toolResults.map ToolResult.name =
      (chat p tools base locCtx history userMessage).toolCalls.map ToolCall.name := by
  have hr := chatLoop_results_inv p tools base locCtx MAX_ITERATIONS 0
    (history ++ [Message.userInput userMessage]) [] [] [] rfl
  unfold chat
  refine ⟨hr, ?_, ?_⟩
  · rw [hr, execBatch_length]
  · rw [hr, execBatch_names]

/-- Witness for `chat_results_align_calls` at a concrete completed run. -/
theorem chat_results_align_calls_witness :
    (chat bothProvider demoTools "" "" [] "hi").toolResults =
      execBatch demoTools (chat bothProvider demoTools "" "" [] "hi").toolCalls ∧
    (chat bothProvider demoTools "" "" [] "hi").toolResults.length =
      (chat bothProvider demoTools "" "" [] "hi").toolCalls.length ∧
    (chat bothProvider demoTools "" "" [] "hi").toolResults.map ToolResult.name =
      (chat bothProvider demoTools "" "" [] "hi").toolCalls.map ToolCall.name :=
  chat_results_align_calls bothProvider demoTools "" "" [] "hi" rfl

/-- C4: the Tool Executor never raises — `executeTool` is a total function
into outcomes. An unresolved name yields the null-valued outcome with error
"Unknown tool: <name>"; a successful handler yields an outcome carrying the
handler result; a handler that throws an `Error` yields the null-valued
outcome whose error equals the message of the thrown exception (and a thrown
non-`Error` value yields the substitute message "Unknown error"). -/
theorem executeTool_contract (tools : List AgentTool) (name : String)
    (args : List (String × JSValue)) :
    (resolveTool tools name = none →
      executeTool tools name args =
        ⟨name, JSValue.null, ErrField.str ("Unknown tool: " ++ name)⟩) ∧
    (∀ tool v, resolveTool tools name = some tool → tool.action args = .ok v →
      executeTool tools name args = ⟨name, v, ErrField.absent⟩) ∧
    (∀ tool msg, resolveTool tools name = some tool →
      tool.action args = .error (Thrown.error msg) →
      executeTool tools name args = ⟨name, JSValue.null, ErrField.str msg⟩) ∧
    (∀ tool, resolveTool tools name = some tool →
      tool.action args = .error Thrown.nonError →
      executeTool tools name args = ⟨name, JSValue.null, ErrField.str "Unknown error"⟩) := by
  refine ⟨fun h => ?_, fun tool v h1 h2 => ?_, fun tool msg h1 h2 => ?_,
    fun tool h1 h2 => ?_⟩ <;>
    simp [executeTool, thrownMessage, *]

/-- Witness for `executeTool_contract` on a concrete registry: a throwing
handler, an unknown name, and a successful handler. -/
theorem executeTool_contract_witness :
    executeTool demoTools "flaky" [] = ⟨"flaky", JSValue.null, ErrField.str "timeout"⟩ ∧
    executeTool demoTools "nope" [] = ⟨"nope", JSValue.null, ErrField.str ("Unknown tool: " ++ "nope")⟩ ∧
    executeTool demoTools "echo" [] = ⟨"echo", JSValue.str "ok", ErrField.absent⟩ :=
  ⟨(executeTool_contract demoTools "flaky" []).2.2.1 timeoutTool "timeout" rfl rfl,
   (executeTool_contract demoTools "nope" []).1 rfl,
   (executeTool_contract demoTools "echo" []).2.1 echoTool (JSValue.str "ok") rfl rfl⟩

/-- C8 counterexample: on handler success the executor returns
`{ name, result }` — the error field is omitted from the object literal, not
set to null as the claim states, and an omitted field is observably different
from an explicit null. -/
theorem outcome_error_field_counterexample :
    (executeTool demoTools "echo" []).error = ErrField.absent ∧
    ErrField.absent ≠ ErrField.null :=
  ⟨rfl, by decide⟩

/-- C8 amended: every outcome produced by the executor has the name echoed
and the result field always present (explicitly null on failure); the error
field is never an explicit null — it is a string exactly on failure, and on
success it is omitted entirely rather than set to null. -/
theorem outcome_shape (tools : List AgentTool) (name : String)
    (args : List (String × JSValue)) :
    (executeTool tools name args).name = name ∧
    (executeTool tools name args).error ≠ ErrField.null ∧
    ((executeTool tools name args).error = ErrField.absent ∨
      ∃ s, (executeTool tools name args).error = ErrField.str s ∧
        (executeTool tools name args).result = JSValue.null) := by
  unfold executeTool
  split
  · exact ⟨rfl, by simp, Or.inr ⟨_, rfl, rfl⟩⟩
  · split
    · exact ⟨rfl, by simp, Or.inl rfl⟩
    · exact ⟨rfl, by simp, Or.inr ⟨_, rfl, rfl⟩⟩

/-- C7 counterexample: the outcome `{value: 0, error: null}` has its error
absent and its value present, so per the claim it is a success and the
only-successes "explored" message naming the called tool should follow; the
code instead classifies by JavaScript truthiness, under which the value 0 is
not counted, and returns the clarifying-questions message. -/
theorem exhaustion_classification_counterexample :
    buildExhaustionMessage [⟨"search", JSValue.num 0, ErrField.null⟩]
      [⟨"search", [], none⟩] = clarifyingMessage ∧
    clarifyingMessage ≠ exploredMessage "search" := by
  refine ⟨rfl, ?_⟩
  decide

/-- C7 amended: the exhaustion message is determined by classifying the
accumulated outcomes by JavaScript truthiness — `succeeded` means the error
field is falsy (absent, null, or empty) and the value truthy, `failed` means
the error field is a nonempty string: no outcome in either class yields the
clarifying-questions message, at least one success and no failure yields the
explored message naming the tools called, and any failure yields the
apology-plus-retry message; in particular the empty outcome list yields the
clarifying message, `[{value:1, error:null}]` yields the explored message
naming the tool, and `[{value:null, error:"x"}]` yields the apology
message. -/
theorem exhaustion_message_rule (trs : List ToolResult) (tcs : List ToolCall) :
    (successCount trs = 0 ∧ failureCount trs = 0 →
      buildExhaustionMessage trs tcs = clarifyingMessage) ∧
    (0 < successCount trs ∧ failureCount trs = 0 →
      buildExhaustionMessage trs tcs =
        exploredMessage (String.intercalate ", " (tcs.map ToolCall.name))) ∧
    (0 < failureCount trs → buildExhaustionMessage trs tcs = apologyMessage) ∧
    buildExhaustionMessage [] tcs = clarifyingMessage ∧
    buildExhaustionMessage [⟨"search", JSValue.num 1, ErrField.null⟩]
      [⟨"search", [], none⟩] = exploredMessage "search" ∧
    buildExhaustionMessage [⟨"search", JSValue.null, ErrField.str "x"⟩] tcs =
      apologyMessage := by
  refine ⟨?_, ?_, ?_, ?_, rfl, ?_⟩
  · rintro ⟨h1, h2⟩
    simp [buildExhaustionMessage, h1, h2]
  · rintro ⟨h1, h2⟩
    have h1' : successCount trs ≠ 0 := by omega
    simp [buildExhaustionMessage, h1, h1', h2]
  · intro h
    have h' : failureCount trs ≠ 0 := by omega
    simp [buildExhaustionMessage, h, h']
  · simp [buildExhaustionMessage, successCount, failureCount]
  · simp [buildExhaustionMessage, successCount, failureCount, ErrField.truthy,
      JSValue.truthy]

/-- Witness for `exhaustion_message_rule` at concrete outcome lists for each
of the three classes. -/
theorem exhaustion_message_rule_witness :
    buildExhaustionMessage [] [] = clarifyingMessage ∧
    buildExhaustionMessage [⟨"echo", JSValue.str "ok", ErrField.absent⟩]
      [⟨"echo", [], none⟩] =
      exploredMessage (String.intercalate ", "
        (([⟨"echo", [], none⟩] : List ToolCall).map ToolCall.name)) ∧
    buildExhaustionMessage [⟨"flaky", JSValue.null, ErrField.str "timeout"⟩] [] =
      apologyMessage :=
  ⟨(exhaustion_message_rule [] []).1 ⟨rfl, rfl⟩,
   (exhaustion_message_rule [⟨"echo", JSValue.str "ok", ErrField.absent⟩]
     [⟨"echo", [], none⟩]).2.1 ⟨by decide, rfl⟩,
   (exhaustion_message_rule [⟨"flaky", JSValue.null, ErrField.str "timeout"⟩] []).2.2.1
     (by decide)⟩

set_option maxRecDepth 4096 in
/-- C6 counterexample: iteration 8 satisfies 8 < ceiling - 1 = 9, so the
claim demands tools offered with no supplementary guidance; the code offers
tools but also appends the 2-iterations-remaining note, because its warning
window is `iteration + 2 >= MAX_ITERATIONS`, i.e. iterations 8 and 9. -/
theorem iteration_policy_counterexample :
    (8 : Nat) < MAX_ITERATIONS - 1 ∧
    buildSystemInstruction "" "" 8 ≠ "" ++ "" ++ TOOLS_INSTRUCTIONS ∧
    buildSystemInstruction "" "" 8 = "" ++ "" ++ TOOLS_INSTRUCTIONS ++ remainingNote 8 := by
  refine ⟨by decide, ?_, rfl⟩
  decide

/-- C6 amended: with ceiling 10, for 1 <= i < ceiling - 2 the policy offers
tools and appends no supplementary guidance; for ceiling - 2 <= i < ceiling
(iterations 8 and 9) it offers tools and appends guidance stating the exact
number of remaining iterations and instructing the model to prioritize and
wrap up; for i = ceiling it withholds all tools and appends guidance stating
that no iterations remain. -/
theorem iteration_policy (base locCtx : String) (tools : List AgentTool)
    (i : Nat) (h1 : 1 ≤ i) (h2 : i ≤ MAX_ITERATIONS) :
    (i + 2 < MAX_ITERATIONS →
      buildSystemInstruction base locCtx i = base ++ locCtx ++ TOOLS_INSTRUCTIONS ∧
      toolsForIteration tools i = tools) ∧
    (MAX_ITERATIONS ≤ i + 2 → i < MAX_ITERATIONS →
      buildSystemInstruction base locCtx i =
        base ++ locCtx ++ TOOLS_INSTRUCTIONS ++ remainingNote i ∧
      toolsForIteration tools i = tools) ∧
    (i = MAX_ITERATIONS →
      buildSystemInstruction base locCtx i = base ++ locCtx ++ noIterationsNote ∧
      toolsForIteration tools i = []) := by
  refine ⟨fun h => ⟨?_, ?_⟩, fun ha hb => ⟨?_, ?_⟩, fun h => ?_⟩
  · unfold buildSystemInstruction
    rw [if_neg (by omega), if_neg (by omega)]
  · unfold toolsForIteration
    rw [if_neg (by simp; omega)]
  · unfold buildSystemInstruction
    rw [if_neg (by omega), if_pos (by omega)]
  · unfold toolsForIteration
    rw [if_neg (by simp; omega)]
  · subst h
    constructor
    · unfold buildSystemInstruction
      rw [if_pos (by omega)]
    · unfold toolsForIteration
      rw [if_pos (by simp)]

/-- Witness for `iteration_policy` at iterations 9 and 10. -/
theorem iteration_policy_witness :
    (buildSystemInstruction "" "" 9 = "" ++ "" ++ TOOLS_INSTRUCTIONS ++ remainingNote 9 ∧
      toolsForIteration demoTools 9 = demoTools) ∧
    (buildSystemInstruction "" "" 10 = "" ++ "" ++ noIterationsNote ∧
      toolsForIteration demoTools 10 = []) :=
  ⟨(iteration_policy "" "" demoTools 9 (by decide) (by decide)).2.1 (by decide) (by decide),
   (iteration_policy "" "" demoTools 10 (by decide) (by decide)).2.2 rfl⟩

set_option maxRecDepth 4096 in
/-- C3 counterexample: with a provider whose first response carries both the
nonempty text "Hello!" and one invocation, the loop does not conclude the
turn with that text — it executes the invocation (one accumulated tool call)
and continues, concluding on the next iteration with "done"; and with a
provider whose ceiling-iteration response is both-empty after nine tool
batches, the loop does not conclude with an empty final answer — it returns
the synthesized exhaustion message. -/
theorem text_preference_counterexample :
    (chat bothProvider demoTools "" "" [] "hi").finalText ≠ "Hello!" ∧
    (chat bothProvider demoTools "" "" [] "hi").toolCalls = [⟨"echo", [], none⟩] ∧
    (chat bothProvider demoTools "" "" [] "hi").finalText = "done" ∧
    (chat exhaustingProvider demoTools "" "" [] "hi").finalText =
      exploredMessage "echo, echo, echo, echo, echo, echo, echo, echo, echo" ∧
    (chat exhaustingProvider demoTools "" "" [] "hi").finalText ≠ "" := by
  refine ⟨?_, rfl, rfl, rfl, ?_⟩
  · have hd : (chat bothProvider demoTools "" "" [] "hi").finalText = "done" := rfl
    rw [hd]
    decide
  · have hx : (chat exhaustingProvider demoTools "" "" [] "hi").finalText =
        exploredMessage "echo, echo, echo, echo, echo, echo, echo, echo, echo" := rfl
    rw [hx]
    decide

/-- C3 amended: when a generate response carries a nonempty invocation list,
the loop prefers the invocations — it executes them and continues iterating,
and any text also present is not used to conclude the turn. When a response
has both text and invocations empty, the loop concludes the turn after that
very call: below the ceiling iteration it concludes with the empty final
answer and appends nothing to the history; on the ceiling iteration the
empty answer is replaced by the synthesized exhaustion message, which is
appended as the assistant response. -/
theorem response_branching (p : Provider) (tools : List AgentTool)
    (base locCtx : String) :
    (∀ (fuel iterations : Nat) (messages : List Message) (atc : List ToolCall)
      (atr : List ToolResult) (gcs : List GenCall) (r : GenerateResponse)
      (tcs : List ToolCall),
      p (iterations + 1) messages (toolsForIteration tools (iterations + 1))
        (buildSystemInstruction base locCtx (iterations + 1)) = .ok r →
      r.toolCalls = some tcs → 0 < tcs.length →
      chatLoop p tools base locCtx (fuel + 1) iterations messages atc atr gcs =
        chatLoop p tools base locCtx fuel (iterations + 1)
          (messages ++ [Message.toolCalls tcs, Message.toolResults (execBatch tools tcs)])
          (atc ++ tcs) (atr ++ execBatch tools tcs)
          (gcs ++ [⟨iterations + 1, messages,
            toolsForIteration tools (iterations + 1),
            buildSystemInstruction base locCtx (iterations + 1)⟩])) ∧
    (∀ (fuel iterations : Nat) (messages : List Message) (atc : List ToolCall)
      (atr : List ToolResult) (gcs : List GenCall) (r : GenerateResponse),
      p (iterations + 1) messages (toolsForIteration tools (iterations + 1))
        (buildSystemInstruction base locCtx (iterations + 1)) = .ok r →
      (r.text = none ∨ r.text = some "") →
      (r.toolCalls = none ∨ r.toolCalls = some []) →
      (iterations + 1 < MAX_ITERATIONS →
        chatLoop p tools base locCtx (fuel + 1) iterations messages atc atr gcs =
          { threw := none, finalText := "", toolCalls := atc, toolResults := atr,
            messages := messages,
            genCalls := gcs ++ [⟨iterations + 1, messages,
              toolsForIteration tools (iterations + 1),
              buildSystemInstruction base locCtx (iterations + 1)⟩],
            iterations := iterations + 1 }) ∧
      (iterations + 1 = MAX_ITERATIONS →
        chatLoop p tools base locCtx (fuel + 1) iterations messages atc atr gcs =
          { threw := none, finalText := buildExhaustionMessage atr atc,
            toolCalls := atc, toolResults := atr,
            messages := messages ++
              [Message.assistantResponse (buildExhaustionMessage atr atc)],
            genCalls := gcs ++ [⟨iterations + 1, messages,
              toolsForIteration tools (iterations + 1),
              buildSystemInstruction base locCtx (iterations + 1)⟩],
            iterations := MAX_ITERATIONS })) := by
  constructor
  · intro fuel iterations messages atc atr gcs r tcs hp htc hlen
    exact chatLoop_succ_calls hp htc hlen
  · intro fuel iterations messages atc atr gcs r hp htext htc
    constructor
    · intro hlt
      rw [chatLoop_succ_text hp htc]
      rcases htext with h | h <;>
        simp [finishTurn, h, show ¬ MAX_ITERATIONS ≤ iterations + 1 from by omega]
    · intro heq
      rw [chatLoop_succ_text hp htc]
      rcases htext with h | h <;>
        simp [finishTurn, h, heq]

/-- Witness for `response_branching`: the invocation-preference step at a
concrete both-nonempty response, a both-empty first response concluding with
the empty final answer, and a both-empty ceiling response concluding with
the exhaustion message. -/
theorem response_branching_witness :
    (chatLoop bothProvider demoTools "" "" (9 + 1) 0 [Message.userInput "hi"] [] [] [] =
      chatLoop bothProvider demoTools "" "" 9 1
        ([Message.userInput "hi"] ++ [Message.toolCalls [⟨"echo", [], none⟩],
          Message.toolResults (execBatch demoTools [⟨"echo", [], none⟩])])
        ([] ++ [⟨"echo", [], none⟩]) ([] ++ execBatch demoTools [⟨"echo", [], none⟩])
        ([] ++ [⟨1, [Message.userInput "hi"], toolsForIteration demoTools 1,
          buildSystemInstruction "" "" 1⟩])) ∧
    (chatLoop emptyProvider demoTools "" "" (9 + 1) 0 [Message.userInput "hi"] [] [] [] =
      { threw := none, finalText := "", toolCalls := [], toolResults := [],
        messages := [Message.userInput "hi"],
        genCalls := [] ++ [⟨0 + 1, [Message.userInput "hi"],
          toolsForIteration demoTools (0 + 1),
          buildSystemInstruction "" "" (0 + 1)⟩],
        iterations := 0 + 1 }) ∧
    (chatLoop emptyProvider demoTools "" "" (0 + 1) 9 [Message.userInput "hi"] [] [] [] =
      { threw := none, finalText := buildExhaustionMessage [] [],
        toolCalls := [], toolResults := [],
        messages := [Message.userInput "hi"] ++
          [Message.assistantResponse (buildExhaustionMessage [] [])],
        genCalls := [] ++ [⟨9 + 1, [Message.userInput "hi"],
          toolsForIteration demoTools (9 + 1),
          buildSystemInstruction "" "" (9 + 1)⟩],
        iterations := MAX_ITERATIONS }) :=
  ⟨(response_branching bothProvider demoTools "" "").1 9 0 [Message.userInput "hi"]
      [] [] [] ⟨some "Hello!", some [⟨"echo", [], none⟩]⟩ [⟨"echo", [], none⟩]
      rfl rfl (by decide),
   ((response_branching emptyProvider demoTools "" "").2 9 0 [Message.userInput "hi"]
      [] [] [] ⟨none, none⟩ rfl (Or.inl rfl) (Or.inl rfl)).1 (by decide),
   ((response_branching emptyProvider demoTools "" "").2 0 9 [Message.userInput "hi"]
      [] [] [] ⟨none, none⟩ rfl (Or.inl rfl) (Or.inl rfl)).2 rfl⟩

/-- C5: a tool-call batch returned by the provider is stored verbatim — the
very list the provider returned becomes the content of the `tool_calls`
history message — and when a history containing such a message is replayed
through the Gemini adapter, the outbound request content at the same index is
a "model" content whose k-th part is a function call carrying the stored
`thoughtSignature` byte-for-byte. -/
theorem continuation_token_round_trip :
    (∀ (p : Provider) (tools : List AgentTool) (base locCtx : String)
      (fuel iterations : Nat) (messages : List Message) (atc : List ToolCall)
      (atr : List ToolResult) (gcs : List GenCall) (r : GenerateResponse)
      (tcs : List ToolCall),
      p (iterations + 1) messages (toolsForIteration tools (iterations + 1))
        (buildSystemInstruction base locCtx (iterations + 1)) = .ok r →
      r.toolCalls = some tcs → 0 < tcs.length →
      chatLoop p tools base locCtx (fuel + 1) iterations messages atc atr gcs =
        chatLoop p tools base locCtx fuel (iterations + 1)
          (messages ++ [Message.toolCalls tcs, Message.toolResults (execBatch tools tcs)])
          (atc ++ tcs) (atr ++ execBatch tools tcs)
          (gcs ++ [⟨iterations + 1, messages,
            toolsForIteration tools (iterations + 1),
            buildSystemInstruction base locCtx (iterations + 1)⟩])) ∧
    (∀ (history : List Message) (i : Nat) (tcs : List ToolCall) (k : Nat)
      (tc : ToolCall) (T : String),
      history[i]? = some (Message.toolCalls tcs) →
      tcs[k]? = some tc → tc.thoughtSignature = some T →
      ∃ parts, (buildContents history)[i]? = some ⟨"model", parts⟩ ∧
        parts[k]? = some (GeminiPart.functionCall tc.name tc.args (some T))) := by
  constructor
  · intro p tools base locCtx fuel iterations messages atc atr gcs r tcs hp htc hlen
    exact chatLoop_succ_calls hp htc hlen
  · intro history i tcs k tc T hi hk hT
    refine ⟨tcs.map (fun tc => GeminiPart.functionCall tc.name tc.args tc.thoughtSignature),
      ?_, ?_⟩
    · unfold buildContents
      rw [List.getElem?_map, hi]
      rfl
    · rw [List.getElem?_map, hk]
      simp [hT]

/-- Witness for `continuation_token_round_trip`: a provider batch carrying
the token "SIG" is stored verbatim, and replaying a history holding it emits
the same "SIG" on the corresponding function-call part. -/
theorem continuation_token_round_trip_witness :
    (chatLoop callsProvider demoTools "" "" (9 + 1) 0 [Message.userInput "hi"] [] [] [] =
      chatLoop callsProvider demoTools "" "" 9 1
        ([Message.userInput "hi"] ++ [Message.toolCalls [⟨"echo", [], some "SIG"⟩],
          Message.toolResults (execBatch demoTools [⟨"echo", [], some "SIG"⟩])])
        ([] ++ [⟨"echo", [], some "SIG"⟩])
        ([] ++ execBatch demoTools [⟨"echo", [], some "SIG"⟩])
        ([] ++ [⟨1, [Message.userInput "hi"], toolsForIteration demoTools 1,
          buildSystemInstruction "" "" 1⟩])) ∧
    (∃ parts, (buildContents [Message.toolCalls [⟨"echo", [], some "SIG"⟩]])[0]? =
        some ⟨"model", parts⟩ ∧
      parts[0]? = some (GeminiPart.functionCall "echo" [] (some "SIG"))) :=
  ⟨continuation_token_round_trip.1 callsProvider demoTools "" "" 9 0
      [Message.userInput "hi"] [] [] [] ⟨none, some [⟨"echo", [], some "SIG"⟩]⟩
      [⟨"echo", [], some "SIG"⟩] rfl rfl (by decide),
   continuation_token_round_trip.2 [Message.toolCalls [⟨"echo", [], some "SIG"⟩]]
      0 [⟨"echo", [], some "SIG"⟩] 0 ⟨"echo", [], some "SIG"⟩ "SIG" rfl rfl rfl⟩
